import Mathlib

/-!
Shallow embedding of the evalml pipeline orchestration core
(src/evalml/pipelines/pipeline_base.py,
 src/evalml/pipelines/multiclass_classification_pipeline.py,
 src/evalml/pipelines/classification/random_forest.py).

Conventions of the embedding:
* Python exceptions become the `PyErr` inductive; fallible code returns
  `Except PyErr α`.  The constructors `valueError`, `typeError`, `keyError`
  and `indexError` are the built-in exception classes the code actually
  raises; the constructors `invalidPipelineStructure`,
  `unsupportedProblemType`, `componentInstantiationError` and
  `notFittedError` model the dedicated exception classes named by the
  specification's error taxonomy (the code never constructs them; they are
  present so that claims phrased in terms of those classes can be stated).
* pandas DataFrames become `Frame` (column names plus integer rows);
  pandas Series become `Data := List Int`.  The `pd.DataFrame` / `pd.Series`
  coercions at the public entry points are identities in this model because
  inputs are already of the canonical type.
* Components (imputer, encoder, classifier, ...) are external collaborators
  supplied by another library; they are modelled as records of pure
  (possibly failing) methods.  Internal component mutation during `fit` is
  not observable through any claim, so component values are immutable here.
* Scalar objective scores become `Int` (their numeric content is opaque to
  every claim).
-/

/-- Python exception values, as raised by the embedded code (first four
constructors) and as named by the specification's error taxonomy (last four,
never produced by the code). -/
inductive PyErr where
  | valueError (msg : String)
  | typeError (msg : String)
  | keyError (key : String)
  | indexError (msg : String)
  | invalidPipelineStructure
  | unsupportedProblemType
  | componentInstantiationError
  | notFittedError
deriving DecidableEq

/-- Problem type tags (the `ProblemTypes` enum of evalml.problem_types). -/
inductive ProblemType where
  | binary
  | multiclass
  | regression
deriving DecidableEq

/-- A pandas DataFrame: ordered column names plus rows of integer data. -/
structure Frame where
  cols : List String
  rows : List (List Int)
deriving DecidableEq

/-- A pandas Series of labels, predictions or probability summaries. -/
abbrev Data := List Int

/-- An instantiated pipeline component (external collaborator).  `isEstimator`
models the Python `isinstance(component, Estimator)` capability check; the
method fields model `transform`, `fit_transform`, `fit`, `predict` and
`predict_proba`, each of which may raise. -/
structure Component where
  name : String
  isEstimator : Bool
  problem_types : List ProblemType
  transformFn : Frame → Except PyErr Frame
  fitTransformFn : Frame → Data → Except PyErr Frame
  fitFn : Frame → Data → Except PyErr Unit
  predictFn : Frame → Except PyErr Data
  predictProbaFn : Frame → Except PyErr Data

/-- A component class: its display name plus its constructor, which receives
the keyword arguments drawn from the pipeline's `parameters` mapping and may
reject them with an exception. -/
structure ComponentClass where
  name : String
  ctor : List (String × Int) → Except PyErr Component

/-- Keyword arguments for one component constructor. -/
abbrev KwArgs := List (String × Int)

/-- The pipeline `parameters` mapping: component display name to kwargs. -/
abbrev Params := List (String × KwArgs)

/-- An objective (external collaborator): `score_needs_proba` selects hard
predictions versus probability estimates, `uses_extra_columns` asks for the
feature matrix, and `scoreFn` models `score(predictions, truth, X=None)`
with the optional third argument as an `Option Frame`. -/
structure Objective where
  name : String
  score_needs_proba : Bool
  uses_extra_columns : Bool
  scoreFn : Data → Data → Option Frame → Int

/-- Modelled from the spec: the component registry/factory `handle_component`
(evalml.pipelines.components, not under src/) resolves a symbolic or live
component reference to a concrete component object.  References are modelled
as already-resolved component classes, so resolution is the identity. -/
def handle_component (c : ComponentClass) : ComponentClass := c

/-- Modelled from the spec: `handle_problem_types`
(evalml.problem_types, not under src/) converts a string or enum reference
into a `ProblemTypes` member.  References are modelled as already-converted
tags, so conversion is the identity. -/
def handle_problem_types (p : ProblemType) : ProblemType := p

/-- Modelled from the spec: `get_objective` (evalml.objectives, not under
src/) resolves an objective reference to a live objective.  References are
modelled as live objectives, so resolution is the identity. -/
def get_objective (o : Objective) : Objective := o

/-- Ordered-dictionary update, the semantics of Python's
`d.update({k: v})` on `dict`/`OrderedDict`: overwrite in place when the key
is present, append otherwise. -/
def dictUpdate {α : Type} (d : List (String × α)) (k : String) (v : α) :
    List (String × α) :=
  if (d.map Prod.fst).contains k then
    d.map (fun kv => if kv.1 = k then (k, v) else kv)
  else
    d ++ [(k, v)]

/-- Python `parameters.get(component_name, {})`. -/
def paramsGet (parameters : Params) (k : String) : KwArgs :=
  match parameters.find? (fun kv => kv.1 == k) with
  | some kv => kv.2
  | none => []

/-- Rendering of a kwargs mapping inside an error message (stand-in for the
Python dict repr interpolated by `str.format`). -/
def kwargsRepr (ps : KwArgs) : String :=
  "\x7b" ++ String.intercalate ", "
    (ps.map (fun kv => kv.1 ++ ": " ++ toString kv.2)) ++ "\x7d"

/-- The message of the `ValueError` raised by
`PipelineBase._instantiate_component` when the underlying constructor
rejects its arguments (pipeline_base.py line 90). -/
def instantiationErrMsg (componentName : String) (ps : KwArgs) : String :=
  "Error received when instantiating component " ++ componentName ++
    " with the following arguments " ++ kwargsRepr ps

/-- PipelineBase._instantiate_component (pipeline_base.py lines 81-92):
resolve the reference, look up its kwargs (default empty), call the
constructor; a `ValueError` or `TypeError` from the constructor is replaced
by a `ValueError` naming the component and the kwargs; any other exception
propagates unchanged. -/
def instantiate_component (c : ComponentClass) (parameters : Params) :
    Except PyErr Component :=
  let component := handle_component c
  let component_parameters := paramsGet parameters component.name
  match component.ctor component_parameters with
  | .ok newComponent => .ok newComponent
  | .error (.valueError _) =>
      .error (.valueError (instantiationErrMsg component.name component_parameters))
  | .error (.typeError _) =>
      .error (.valueError (instantiationErrMsg component.name component_parameters))
  | .error e => .error e

/-- The list comprehension in `PipelineBase.__init__` line 43: instantiate
every component left to right, propagating the first exception. -/
def instantiateAll (graph : List ComponentClass) (parameters : Params) :
    Except PyErr (List Component) :=
  match graph with
  | [] => .ok []
  | c :: rest =>
      match instantiate_component c parameters with
      | .error e => .error e
      | .ok comp =>
          match instantiateAll rest parameters with
          | .error e => .error e
          | .ok comps => .ok (comp :: comps)

/-- The `enumerate(self.component_graph[:-1])` loop of
`PipelineBase._generate_name`: index 0 joins with " w/ ", later indices join
with " + ". -/
def nameFold : String → Nat → List Component → String
  | s, _, [] => s
  | s, 0, c :: rest => nameFold (s ++ " w/ " ++ c.name) 1 rest
  | s, i + 1, c :: rest => nameFold (s ++ " + " ++ c.name) (i + 2) rest

/-- PipelineBase._generate_name (pipeline_base.py lines 56-68). -/
def generate_name (estimator : Option Component) (graph : List Component) :
    String :=
  let base :=
    match estimator with
    | some e => e.name
    | none => "Pipeline"
  nameFold base 0 graph.dropLast

/-- String rendering of a problem type (the `str`/repr used by message
formatting; the enum itself lives outside src/). -/
def ptStr : ProblemType → String
  | .binary => "ProblemTypes.BINARY"
  | .multiclass => "ProblemTypes.MULTICLASS"
  | .regression => "ProblemTypes.REGRESSION"

/-- The message of the `ValueError` raised by
`PipelineBase._validate_problem_types` (pipeline_base.py line 79). -/
def problemTypeErrMsg (pt : ProblemType) (valid : List ProblemType) : String :=
  "Problem type " ++ ptStr pt ++
    " not valid for this component graph. Valid problem types include [" ++
    String.intercalate ", " (valid.map ptStr) ++ "]."

/-- PipelineBase._validate_problem_types (pipeline_base.py lines 70-79):
scan the declared problem types in order and raise on the first one missing
from the estimator's supported set; `none` means the check passes. -/
def validateProblemTypes (declared : List ProblemType)
    (estimatorTypes : List ProblemType) : Option PyErr :=
  match declared.find? (fun pt => !(estimatorTypes.contains pt)) with
  | some pt => some (.valueError (problemTypeErrMsg pt estimatorTypes))
  | none => none

/-- The message of the `ValueError` raised when the last component is not an
estimator (pipeline_base.py line 51). -/
def estimatorErrMsg : String :=
  "A pipeline must have an Estimator as the last component in component_graph."

/-- The state of a constructed pipeline instance. -/
structure Pipeline where
  component_graph : List Component
  problem_types : List ProblemType
  input_feature_names : List (String × List String)
  results : List (String × Int)
  parameters : Params
  estimator : Component
  name : String

/-- PipelineBase.__init__ (pipeline_base.py lines 31-54): instantiate the
component graph, convert the declared problem types, record the parameters,
require the last component to be an estimator (an empty graph hits the
Python `component_graph[-1]` IndexError first), derive the display name and
validate the declared problem types against the estimator's supported set. -/
def pipelineInit (component_graph : List ComponentClass)
    (problem_types : List ProblemType) (parameters : Params) :
    Except PyErr Pipeline :=
  match instantiateAll component_graph parameters with
  | .error e => .error e
  | .ok comps =>
      match comps.getLast? with
      | none => .error (.indexError "list index out of range")
      | some lastComp =>
          match (if lastComp.isEstimator then some lastComp else none) with
          | none => .error (.valueError estimatorErrMsg)
          | some est =>
              match validateProblemTypes (problem_types.map handle_problem_types)
                  est.problem_types with
              | some e => .error e
              | none =>
                  .ok { component_graph := comps
                        problem_types := problem_types.map handle_problem_types
                        input_feature_names := []
                        results := []
                        parameters := parameters
                        estimator := est
                        name := generate_name (some est) comps }

/-- The transformer loop of `PipelineBase._transform` (pipeline_base.py
lines 143-147): thread the frame through `transform` of every component in
the list, propagating the first exception. -/
def transformAll : List Component → Frame → Except PyErr Frame
  | [], x => .ok x
  | c :: rest, x =>
      match c.transformFn x with
      | .error e => .error e
      | .ok x' => transformAll rest x'

/-- PipelineBase.predict (pipeline_base.py lines 183-197): coerce the input
(identity here), replay the transform chain over all but the last component,
then delegate to the estimator's `predict`.  Note there is no fitted-state
check of any kind. -/
def pipelinePredict (p : Pipeline) (x : Frame) : Except PyErr Data :=
  match transformAll p.component_graph.dropLast x with
  | .error e => .error e
  | .ok xt => p.estimator.predictFn xt

/-- Modelled from the spec: `predict_proba` of the classification pipeline
base class (evalml.pipelines.classification_pipeline, not under src/)
replays the transform chain and delegates to the estimator's
`predict_proba`, mirroring `predict`. -/
def pipelinePredictProba (p : Pipeline) (x : Frame) : Except PyErr Data :=
  match transformAll p.component_graph.dropLast x with
  | .error e => .error e
  | .ok xt => p.estimator.predictProbaFn xt

/-- The transformer loop of `PipelineBase._fit` (pipeline_base.py lines
149-154): for each transformer, record the current input's column names
under the component's name, then fit-transform and continue with the
result. -/
def fitLoop : List Component → Frame → Data →
    List (String × List String) →
    Except PyErr (Frame × List (String × List String))
  | [], x, _, names => .ok (x, names)
  | c :: rest, x, y, names =>
      let names' := dictUpdate names c.name x.cols
      match c.fitTransformFn x y with
      | .error e => .error e
      | .ok x' => fitLoop rest x' y names'

/-- PipelineBase.fit / _fit (pipeline_base.py lines 149-181): coerce the
inputs (identity here), run the fit-transform chain over the transformers,
record the estimator's input columns, fit the estimator, and return the
updated pipeline (the only pipeline-owned state that changes is
`input_feature_names`).  The unused `objective` / `objective_fit_size`
arguments of the Python signature are omitted. -/
def pipelineFit (p : Pipeline) (x : Frame) (y : Data) :
    Except PyErr Pipeline :=
  match fitLoop p.component_graph.dropLast x y p.input_feature_names with
  | .error e => .error e
  | .ok (xt, names) =>
      let names' := dictUpdate names p.estimator.name xt.cols
      match p.estimator.fitFn xt y with
      | .error e => .error e
      | .ok _ => .ok { p with input_feature_names := names' }

/-- PipelineBase.describe (pipeline_base.py lines 117-141): the logging
output goes to an external sink; the returned value is the construction-time
`parameters` mapping when `return_dict` is true and `None` otherwise. -/
def describe (p : Pipeline) (return_dict : Bool) : Option Params :=
  if return_dict then some p.parameters else none

/-- PipelineBase.get_component (pipeline_base.py lines 105-115):
`next((component for component in self.component_graph if component.name ==
name), None)` — the first component with the given name, or `None`.  The
lookup is a pure read of the pipeline. -/
def get_component (p : Pipeline) (nm : String) : Option Component :=
  p.component_graph.find? (fun component => component.name == nm)

/-- The dictionary access `self.input_feature_names[self.estimator.name]`
that opens `PipelineBase.feature_importances` (pipeline_base.py line 288);
on a never-fitted pipeline the mapping is empty, so the access raises
`KeyError` before any further work (the zip/sort/DataFrame tail of the
property is unreachable on that path and not modelled). -/
def feature_importances_lookup (p : Pipeline) :
    Except PyErr (List String) :=
  match p.input_feature_names.find? (fun kv => kv.1 == p.estimator.name) with
  | some kv => .ok kv.2
  | none => .error (.keyError p.estimator.name)

/-- The optional third argument of an objective's
`score(predictions, truth, X=None)` as chosen by `PipelineBase.score`:
the feature matrix is passed exactly when `uses_extra_columns` is true. -/
def extraArg (o : Objective) (x : Frame) : Option Frame :=
  if o.uses_extra_columns then some x else none

/-- The objective loop of `PipelineBase.score` (pipeline_base.py lines
217-236), instrumented with invocation counters: `yp` / `ypp` are the lazy
`y_predicted` / `y_predicted_proba` caches, `np` / `npp` count how many
times `self.predict` / `self.predict_proba` have been invoked, and `acc` is
the ordered score dictionary.  `predictResult` / `probaResult` are the
outcomes of the (at most one) invocation of each prediction method; they
are consulted only when the corresponding cache is empty, exactly as the
Python lazily calls the method only then. -/
def scoreGo (x : Frame) (y : Data)
    (predictResult probaResult : Except PyErr Data) :
    List Objective → Option Data → Option Data → Nat → Nat →
    List (String × Int) →
    Except PyErr (List (String × Int) × Nat × Nat)
  | [], _, _, np, npp, acc => .ok (acc, np, npp)
  | o :: rest, yp, ypp, np, npp, acc =>
      if o.score_needs_proba then
        match ypp with
        | some v =>
            scoreGo x y predictResult probaResult rest yp (some v) np npp
              (dictUpdate acc o.name (o.scoreFn v y (extraArg o x)))
        | none =>
            match probaResult with
            | .error e => .error e
            | .ok v =>
                scoreGo x y predictResult probaResult rest yp (some v) np
                  (npp + 1)
                  (dictUpdate acc o.name (o.scoreFn v y (extraArg o x)))
      else
        match yp with
        | some v =>
            scoreGo x y predictResult probaResult rest (some v) ypp np npp
              (dictUpdate acc o.name (o.scoreFn v y (extraArg o x)))
        | none =>
            match predictResult with
            | .error e => .error e
            | .ok v =>
                scoreGo x y predictResult probaResult rest (some v) ypp
                  (np + 1) npp
                  (dictUpdate acc o.name (o.scoreFn v y (extraArg o x)))

/-- PipelineBase.score (pipeline_base.py lines 199-236): coerce the inputs
(identity here), resolve the objectives, then run the lazy-caching objective
loop starting from empty caches.  The result carries the ordered score
dictionary together with the number of `predict` and `predict_proba`
invocations performed during the call. -/
def pipelineScore (p : Pipeline) (x : Frame) (y : Data)
    (objectives : List Objective) :
    Except PyErr (List (String × Int) × Nat × Nat) :=
  scoreGo x y (pipelinePredict p x) (pipelinePredictProba p x)
    (objectives.map get_objective) none none 0 0 []

/-- The objective loop of `MulticlassClassificationPipeline.score`
(multiclass_classification_pipeline.py lines 31-45), instrumented exactly
like `scoreGo`.  Note the deviation from the base class: every objective is
invoked as `objective.score(y, y_predictions, X=X)` — ground truth in the
predictions slot, predictions in the truth slot, and the feature matrix
always passed regardless of `uses_extra_columns`. -/
def mcScoreGo (x : Frame) (y : Data)
    (predictResult probaResult : Except PyErr Data) :
    List Objective → Option Data → Option Data → Nat → Nat →
    List (String × Int) →
    Except PyErr (List (String × Int) × Nat × Nat)
  | [], _, _, np, npp, acc => .ok (acc, np, npp)
  | o :: rest, yp, ypp, np, npp, acc =>
      if o.score_needs_proba then
        match ypp with
        | some v =>
            mcScoreGo x y predictResult probaResult rest yp (some v) np npp
              (dictUpdate acc o.name (o.scoreFn y v (some x)))
        | none =>
            match probaResult with
            | .error e => .error e
            | .ok v =>
                mcScoreGo x y predictResult probaResult rest yp (some v) np
                  (npp + 1)
                  (dictUpdate acc o.name (o.scoreFn y v (some x)))
      else
        match yp with
        | some v =>
            mcScoreGo x y predictResult probaResult rest (some v) ypp np npp
              (dictUpdate acc o.name (o.scoreFn y v (some x)))
        | none =>
            match predictResult with
            | .error e => .error e
            | .ok v =>
                mcScoreGo x y predictResult probaResult rest (some v) ypp
                  (np + 1) npp
                  (dictUpdate acc o.name (o.scoreFn y v (some x)))

/-- MulticlassClassificationPipeline.score
(multiclass_classification_pipeline.py lines 14-45). -/
def multiclassScore (p : Pipeline) (x : Frame) (y : Data)
    (objectives : List Objective) :
    Except PyErr (List (String × Int) × Nat × Nat) :=
  mcScoreGo x y (pipelinePredict p x) (pipelinePredictProba p x)
    (objectives.map get_objective) none none 0 0 []

/-- The keyword parameters accepted by `PipelineBase.__init__(self,
parameters)` (pipeline_base.py line 31), `self` excluded. -/
def pipelineBaseAcceptedKeywords : List String := ["parameters"]

/-- The keyword arguments of the `super().__init__(...)` call in
`RFClassificationPipeline.__init__` (classification/random_forest.py lines
29-34), in call order. -/
def rfSuperCallKeywords : List String :=
  ["objective", "parameters", "component_graph", "supported_problem_types"]

/-- Python keyword-binding check for a call `f(k1=..., k2=..., ...)` against
a function with no `**kwargs`: the first keyword not among the accepted
parameter names raises `TypeError`. -/
def checkKeywords (accepted given : List String) : Option PyErr :=
  match given.find? (fun k => !(accepted.contains k)) with
  | some k =>
      some (.typeError ("__init__() got an unexpected keyword argument " ++ k))
  | none => none

/-- The component-graph template of `RFClassificationPipeline`
(classification/random_forest.py line 19), as symbolic references for the
registry; construction never reaches their instantiation because the
`super().__init__` keyword binding fails first. -/
def rfComponentGraph : List ComponentClass :=
  [ { name := "Simple Imputer", ctor := fun _ => .error (.typeError "unreachable") }
  , { name := "One Hot Encoder", ctor := fun _ => .error (.typeError "unreachable") }
  , { name := "RF Classifier Select From Model", ctor := fun _ => .error (.typeError "unreachable") }
  , { name := "Random Forest Classifier", ctor := fun _ => .error (.typeError "unreachable") } ]

/-- RFClassificationPipeline.__init__ (classification/random_forest.py lines
29-34): forwards `objective=`, `parameters=`, `component_graph=` and
`supported_problem_types=` as keywords to `PipelineBase.__init__`, whose
signature accepts only `parameters`; the Python call raises `TypeError` at
keyword binding, before the base initializer body runs. -/
def rfClassificationPipelineInit (_objective : Objective)
    (parameters : Params) : Except PyErr Pipeline :=
  match checkKeywords pipelineBaseAcceptedKeywords rfSuperCallKeywords with
  | some e => .error e
  | none => pipelineInit rfComponentGraph [.binary, .multiclass] parameters

/-- The inner loop of the display name as the claim states it: each
transformer after the first is appended with " + ". -/
def joinPlus (s : String) : List Component → String
  | [] => s
  | c :: rest => joinPlus (s ++ " + " ++ c.name) rest

/-- The display name exactly as claim C9 states it (a second definition,
following the claim's words, to be compared against `generate_name`): the
estimator's name when there are no transformers, otherwise the estimator's
name, " w/ ", the first transformer's name, then " + " and each subsequent
transformer's name in graph order. -/
def claimedPipelineName (e : Component) (ts : List Component) : String :=
  match ts with
  | [] => e.name
  | t :: rest => joinPlus (e.name ++ " w/ " ++ t.name) rest

/-- Concrete transformer used by the witnesses: passes its input through. -/
def idTransform : Component :=
  { name := "Identity Transformer"
    isEstimator := false
    problem_types := []
    transformFn := fun f => .ok f
    fitTransformFn := fun f _ => .ok f
    fitFn := fun _ _ => .ok ()
    predictFn := fun _ => .error (.typeError "transformer has no predict")
    predictProbaFn := fun _ => .error (.typeError "transformer has no predict_proba") }

/-- Concrete estimator used by the witnesses: predicts the constant label 7
and the constant probability summary 5, supporting binary and multiclass. -/
def constEstimator : Component :=
  { name := "Const Estimator"
    isEstimator := true
    problem_types := [.binary, .multiclass]
    transformFn := fun f => .ok f
    fitTransformFn := fun f _ => .ok f
    fitFn := fun _ _ => .ok ()
    predictFn := fun _ => .ok [7]
    predictProbaFn := fun _ => .ok [5] }

/-- Wraps a live component as a component class whose constructor always
succeeds with that component. -/
def clsOf (c : Component) : ComponentClass :=
  { name := c.name, ctor := fun _ => .ok c }

/-- Witness component graph: one transformer followed by one estimator. -/
def sampleGraph : List ComponentClass := [clsOf idTransform, clsOf constEstimator]

/-- Witness feature matrix. -/
def sampleX : Frame := { cols := ["f0", "f1"], rows := [[1, 2], [3, 4]] }

/-- Witness target labels. -/
def sampleY : Data := [9, 9]

/-- The pipeline produced by `pipelineInit sampleGraph [.multiclass] []`. -/
def samplePipeline : Pipeline :=
  { component_graph := [idTransform, constEstimator]
    problem_types := [.multiclass]
    input_feature_names := []
    results := []
    parameters := []
    estimator := constEstimator
    name := "Const Estimator w/ Identity Transformer" }

/-- The pipeline produced by fitting `samplePipeline` on the witness data:
only `input_feature_names` changes. -/
def fittedSamplePipeline : Pipeline :=
  { samplePipeline with
    input_feature_names :=
      [("Identity Transformer", ["f0", "f1"]), ("Const Estimator", ["f0", "f1"])] }

/-- A witness objective scoring from hard predictions.  Its score encodes
its own call shape: 10 times the head of whatever arrived in the
predictions slot, plus the head of whatever arrived in the truth slot, plus
1000 when a feature matrix was passed. -/
def objAcc : Objective :=
  { name := "Accuracy"
    score_needs_proba := false
    uses_extra_columns := false
    scoreFn := fun preds truth xOpt =>
      10 * preds.headI + truth.headI + (if xOpt.isSome then 1000 else 0) }

/-- A witness objective scoring from probability estimates, with the same
call-shape-encoding score as `objAcc`. -/
def objAuc : Objective :=
  { name := "AUC"
    score_needs_proba := true
    uses_extra_columns := false
    scoreFn := fun preds truth xOpt =>
      10 * preds.headI + truth.headI + (if xOpt.isSome then 1000 else 0) }

/-- A component class whose constructor rejects its arguments with a
`ValueError`, for exercising the instantiation-error wrapping. -/
def badEncoderClass : ComponentClass :=
  { name := "One Hot Encoder"
    ctor := fun _ => .error (.valueError "invalid top_n") }

/-- Parameters mapping supplying kwargs to the failing encoder. -/
def encParams : Params := [("One Hot Encoder", [("top_n", 512)])]

/-- Updating an ordered dictionary at a fresh key appends the binding. -/
theorem dictUpdate_not_mem {α : Type} {d : List (String × α)} {k : String}
    (hk : k ∉ d.map Prod.fst) (v : α) : dictUpdate d k v = d ++ [(k, v)] := by
  unfold dictUpdate
  rw [if_neg]
  simpa using hk

/-- A pipeline returned by `pipelineInit` carries exactly the parameters
mapping it was constructed with. -/
theorem init_ok_parameters (graph : List ComponentClass)
    (ptypes : List ProblemType) (params : Params) (p : Pipeline)
    (h : pipelineInit graph ptypes params = .ok p) : p.parameters = params := by
  unfold pipelineInit at h
  split at h
  · exact absurd h (by simp)
  · split at h
    · exact absurd h (by simp)
    · split at h
      · exact absurd h (by simp)
      · split at h
        · exact absurd h (by simp)
        · injection h with h2
          rw [← h2]

/-- `pipelineFit` changes only `input_feature_names`; in particular the
parameters mapping survives fitting unchanged. -/
theorem fit_ok_parameters (p : Pipeline) (x : Frame) (y : Data)
    (p' : Pipeline) (h : pipelineFit p x y = .ok p') :
    p'.parameters = p.parameters := by
  unfold pipelineFit at h
  split at h
  · exact absurd h (by simp)
  · split at h
    · exact absurd h (by simp)
    · injection h with h2
      rw [← h2]

/-- A chain of transformers that individually succeed transforms any frame
successfully. -/
theorem transformAll_ok (l : List Component)
    (hl : ∀ c ∈ l, ∀ f, ∃ f', c.transformFn f = .ok f') :
    ∀ f, ∃ f', transformAll l f = .ok f' := by
  induction l with
  | nil => intro f; exact ⟨f, rfl⟩
  | cons c rest ih =>
      intro f
      obtain ⟨f', hf'⟩ := hl c (by simp) f
      obtain ⟨f'', hf''⟩ := ih (fun c' hc' => hl c' (by simp [hc'])) f'
      exact ⟨f'', by simp [transformAll, hf', hf'']⟩

/-- Once past index 0, `nameFold` is the " + " join of the claim. -/
theorem nameFold_succ (rest : List Component) :
    ∀ (s : String) (i : Nat), nameFold s (i + 1) rest = joinPlus s rest := by
  induction rest with
  | nil => intro s i; rfl
  | cons c tail ih => intro s i; simpa [nameFold, joinPlus] using ih _ (i + 1)

/-- The source's `_generate_name` on a graph of transformers followed by the
estimator agrees with the claim's rendering of the display name. -/
theorem generate_name_concat (e : Component) (ts : List Component) :
    generate_name (some e) (ts ++ [e]) = claimedPipelineName e ts := by
  unfold generate_name
  rw [List.dropLast_concat]
  cases ts with
  | nil => rfl
  | cons t rest => simpa [nameFold, claimedPipelineName] using nameFold_succ rest (e.name ++ " w/ " ++ t.name) 0

/-- A successful `find?` locates the first satisfying element: the list
splits around the witness and everything before it fails the test. -/
theorem find?_first_char {α : Type} (q : α → Bool) :
    ∀ (l : List α) (c : α), l.find? q = some c →
      q c = true ∧ ∃ pre post, l = pre ++ c :: post ∧ ∀ b ∈ pre, q b = false := by
  intro l
  induction l with
  | nil => intro c h; simp [List.find?] at h
  | cons a rest ih =>
      intro c h
      cases hq : q a with
      | true =>
          rw [List.find?_cons_of_pos _ hq] at h
          obtain rfl : a = c := by simpa using h
          exact ⟨hq, [], rest, rfl, by simp⟩
      | false =>
          rw [List.find?_cons_of_neg _ (by simp [hq])] at h
          obtain ⟨hqc, pre, post, heq, hpre⟩ := ih c h
          refine ⟨hqc, a :: pre, post, by simp [heq], ?_⟩
          intro b hb
          rcases List.mem_cons.mp hb with hb | hb
          · subst hb; exact hq
          · exact hpre b hb

/-- C3: the documented `Pipeline(objective, parameters)` construction
interface does not go through on the code: `RFClassificationPipeline.__init__`
forwards `objective=`, `component_graph=` and `supported_problem_types=` as
keywords to `PipelineBase.__init__`, whose signature accepts only
`parameters`, so every construction attempt raises `TypeError` at keyword
binding instead of producing a pipeline — the subclass and base-class
constructors do not agree on the construction signature. -/
theorem c3_rf_construction_raises_type_error
    (objective : Objective) (parameters : Params) :
    rfClassificationPipelineInit objective parameters =
      .error (.typeError "__init__() got an unexpected keyword argument objective") := rfl

/-- C3 witness: the failure at the concrete input
`RFClassificationPipeline(objAcc, {})`. -/
theorem c3_witness :
    rfClassificationPipelineInit objAcc [] =
      .error (.typeError "__init__() got an unexpected keyword argument objective") :=
  c3_rf_construction_raises_type_error objAcc []

/-- C4 (amended): when every component instantiates but the last one lacks
the Estimator capability, construction fails — at construction time, inside
`pipelineInit` itself, before any data exists — with a `ValueError` carrying
the fixed message; the code defines no `InvalidPipelineStructure` class. -/
theorem c4_last_not_estimator_value_error
    (graph : List ComponentClass) (ptypes : List ProblemType) (params : Params)
    (comps : List Component) (lastC : Component)
    (hinst : instantiateAll graph params = .ok comps)
    (hlast : comps.getLast? = some lastC)
    (hnotest : lastC.isEstimator = false) :
    pipelineInit graph ptypes params = .error (.valueError estimatorErrMsg) := by
  unfold pipelineInit
  rw [hinst]
  simp [hlast, hnotest]

/-- C4 witness: a graph whose last instantiated component is a transformer. -/
theorem c4_witness :
    pipelineInit [clsOf constEstimator, clsOf idTransform] [.multiclass] [] =
      .error (.valueError estimatorErrMsg) :=
  c4_last_not_estimator_value_error _ _ _ [constEstimator, idTransform]
    idTransform rfl rfl rfl

/-- C4 counterexample: at the concrete graph [estimator, transformer] the
construction error is the generic `ValueError`, not an
`InvalidPipelineStructure` exception as the claim states. -/
theorem c4_counterexample :
    pipelineInit [clsOf idTransform, clsOf idTransform] [.multiclass] [] =
      .error (.valueError estimatorErrMsg) ∧
    pipelineInit [clsOf idTransform, clsOf idTransform] [.multiclass] [] ≠
      .error .invalidPipelineStructure := by
  refine ⟨rfl, ?_⟩
  intro h
  rw [show pipelineInit [clsOf idTransform, clsOf idTransform] [.multiclass] []
        = .error (.valueError estimatorErrMsg) from rfl] at h
  simp at h

/-- C5 (amended): with a well-formed graph, construction fails at
construction time (no data is in scope) with a `ValueError` whose message
lists the estimator's valid problem types whenever some declared problem
type is outside the estimator's supported set — the first such type in
declaration order is reported — and succeeds when every declared type is
supported; the code defines no `UnsupportedProblemType` class. -/
theorem c5_problem_type_validation
    (graph : List ComponentClass) (ptypes : List ProblemType) (params : Params)
    (comps : List Component) (est : Component)
    (hinst : instantiateAll graph params = .ok comps)
    (hlast : comps.getLast? = some est)
    (hest : est.isEstimator = true) :
    (∀ pt, ptypes.find? (fun t => !(est.problem_types.contains t)) = some pt →
        pipelineInit graph ptypes params =
          .error (.valueError (problemTypeErrMsg pt est.problem_types))) ∧
    ((∀ pt ∈ ptypes, pt ∈ est.problem_types) →
        ∃ p, pipelineInit graph ptypes params = .ok p) := by
  have hmap : ptypes.map handle_problem_types = ptypes := List.map_id' ptypes
  constructor
  · intro pt hfind
    have hval2 : validateProblemTypes ptypes est.problem_types
        = some (.valueError (problemTypeErrMsg pt est.problem_types)) := by
      unfold validateProblemTypes
      rw [hfind]
    unfold pipelineInit
    rw [hinst]
    simp [hmap, hlast, hest, hval2]
  · intro hsub
    have hnone : ptypes.find? (fun t => !(est.problem_types.contains t)) = none := by
      rw [List.find?_eq_none]
      intro pt hpt
      simp
      exact hsub pt hpt
    have hval2 : validateProblemTypes ptypes est.problem_types = none := by
      unfold validateProblemTypes
      rw [hnone]
    unfold pipelineInit
    rw [hinst]
    simp [hmap, hlast, hest, hval2]

/-- C5 witness: declaring [multiclass, regression] against an estimator
supporting [binary, multiclass] fails with the `ValueError` listing the
valid set. -/
theorem c5_witness :
    pipelineInit [clsOf constEstimator] [.multiclass, .regression] [] =
      .error (.valueError (problemTypeErrMsg .regression [.binary, .multiclass])) :=
  (c5_problem_type_validation [clsOf constEstimator] [.multiclass, .regression]
    [] [constEstimator] constEstimator rfl rfl rfl).1 .regression rfl

/-- C5 counterexample: at the concrete input the construction error is the
generic `ValueError`, not an `UnsupportedProblemType` exception as the claim
states. -/
theorem c5_counterexample :
    pipelineInit [clsOf constEstimator] [.regression] [] =
      .error (.valueError (problemTypeErrMsg .regression [.binary, .multiclass])) ∧
    pipelineInit [clsOf constEstimator] [.regression] [] ≠
      .error .unsupportedProblemType := by
  refine ⟨rfl, ?_⟩
  intro h
  rw [show pipelineInit [clsOf constEstimator] [.regression] []
        = .error (.valueError (problemTypeErrMsg .regression [.binary, .multiclass]))
      from rfl] at h
  simp at h

/-- C9: a successfully constructed pipeline over transformers `ts` followed
by estimator `e` gets exactly the display name the claim describes: `e`'s
name alone when there are no transformers, otherwise `e`'s name, " w/ ", the
first transformer's name, and " + " before each later transformer's name in
graph order. -/
theorem c9_pipeline_name
    (graph : List ComponentClass) (ptypes : List ProblemType) (params : Params)
    (ts : List Component) (e : Component)
    (hinst : instantiateAll graph params = .ok (ts ++ [e]))
    (hest : e.isEstimator = true)
    (hval : validateProblemTypes (ptypes.map handle_problem_types)
        e.problem_types = none) :
    ∃ p, pipelineInit graph ptypes params = .ok p ∧
      p.name = claimedPipelineName e ts := by
  unfold pipelineInit
  rw [hinst]
  simp [List.getLast?_concat, hest, hval, generate_name_concat]

/-- C9 witness: the one-transformer witness pipeline is named
"Const Estimator w/ Identity Transformer". -/
theorem c9_witness :
    ∃ p, pipelineInit sampleGraph [.multiclass] [] = .ok p ∧
      p.name = claimedPipelineName constEstimator [idTransform] :=
  c9_pipeline_name sampleGraph [.multiclass] [] [idTransform] constEstimator
    rfl rfl rfl

/-- Invariant of the lazy-caching objective loop: starting from a score
dictionary whose keys avoid the (pairwise distinct) objective names, a
successful run appends exactly one entry per objective in order, and each
prediction method is invoked at most once more than an empty cache allows —
never when its cache is already filled. -/
theorem scoreGo_ok_spec (x : Frame) (y : Data)
    (pr pb : Except PyErr Data) :
    ∀ (objs : List Objective) (yp ypp : Option Data) (np npp : Nat)
      (acc res : List (String × Int)) (a b : Nat),
      (objs.map Objective.name).Nodup →
      (∀ o ∈ objs, o.name ∉ acc.map Prod.fst) →
      scoreGo x y pr pb objs yp ypp np npp acc = .ok (res, a, b) →
      res.map Prod.fst = acc.map Prod.fst ++ objs.map Objective.name ∧
      a ≤ np + (if yp.isSome then 0 else 1) ∧
      b ≤ npp + (if ypp.isSome then 0 else 1) := by
  intro objs
  induction objs with
  | nil =>
      intro yp ypp np npp acc res a b _ _ h
      simp only [scoreGo] at h
      obtain ⟨rfl, rfl, rfl⟩ : acc = res ∧ np = a ∧ npp = b := by simpa using h
      exact ⟨by simp, Nat.le_add_right _ _, Nat.le_add_right _ _⟩
  | cons o rest ih =>
      intro yp ypp np npp acc res a b hnd hfresh h
      have hofresh : o.name ∉ acc.map Prod.fst := hfresh o (by simp)
      have hnotin : o.name ∉ rest.map Objective.name := by
        simp only [List.map_cons, List.nodup_cons] at hnd
        exact hnd.1
      have hnd2 : (rest.map Objective.name).Nodup := by
        simp only [List.map_cons, List.nodup_cons] at hnd
        exact hnd.2
      have hfresh2 : ∀ (s : Int), ∀ o' ∈ rest,
          o'.name ∉ (acc ++ [(o.name, s)]).map Prod.fst := by
        intro s o' ho'
        simp only [List.map_append, List.mem_append]
        rintro (hmem | hmem)
        · exact hfresh o' (by simp [ho']) hmem
        · simp only [List.map_cons, List.map_nil, List.mem_singleton] at hmem
          apply hnotin
          rw [← hmem]
          exact List.mem_map_of_mem Objective.name ho'
      have hkeys : ∀ (s : Int),
          (acc ++ [(o.name, s)]).map Prod.fst = acc.map Prod.fst ++ [o.name] := by
        intro s; simp
      simp only [scoreGo] at h
      cases hsnp : o.score_needs_proba with
      | true =>
          rw [if_pos hsnp] at h
          cases ypp with
          | some v =>
              dsimp only at h
              rw [dictUpdate_not_mem hofresh] at h
              obtain ⟨hk, ha, hbnd⟩ := ih yp (some v) np npp _ res a b hnd2
                (hfresh2 _) h
              refine ⟨?_, ha, by simpa using hbnd⟩
              rw [hk, hkeys]
              simp
          | none =>
              dsimp only at h
              cases pb with
              | error e => exact absurd h (by simp)
              | ok v =>
                  dsimp only at h
                  rw [dictUpdate_not_mem hofresh] at h
                  obtain ⟨hk, ha, hbnd⟩ := ih yp (some v) np (npp + 1) _ res a b
                    hnd2 (hfresh2 _) h
                  refine ⟨?_, ha, ?_⟩
                  · rw [hk, hkeys]
                    simp
                  · simp at hbnd ⊢
                    omega
      | false =>
          rw [if_neg (by simp [hsnp])] at h
          cases yp with
          | some v =>
              dsimp only at h
              rw [dictUpdate_not_mem hofresh] at h
              obtain ⟨hk, ha, hbnd⟩ := ih (some v) ypp np npp _ res a b hnd2
                (hfresh2 _) h
              refine ⟨?_, by simpa using ha, hbnd⟩
              rw [hk, hkeys]
              simp
          | none =>
              dsimp only at h
              cases pr with
              | error e => exact absurd h (by simp)
              | ok v =>
                  dsimp only at h
                  rw [dictUpdate_not_mem hofresh] at h
                  obtain ⟨hk, ha, hbnd⟩ := ih (some v) ypp (np + 1) npp _ res a b
                    hnd2 (hfresh2 _) h
                  refine ⟨?_, ?_, hbnd⟩
                  · rw [hk, hkeys]
                    simp
                  · simp at ha ⊢
                    omega

/-- C1: on a successful `score` call over objectives with pairwise distinct
names, the returned ordered dictionary's keys are exactly the objectives'
names in the caller's requested order, and `predict` and `predict_proba`
are each invoked at most once during the call, however many objectives
request each prediction kind. -/
theorem c1_score_key_order_and_single_computation
    (p : Pipeline) (x : Frame) (y : Data) (objs : List Objective)
    (res : List (String × Int)) (np npp : Nat)
    (_hne : objs ≠ [])
    (hnd : (objs.map Objective.name).Nodup)
    (h : pipelineScore p x y objs = .ok (res, np, npp)) :
    res.map Prod.fst = objs.map Objective.name ∧ np ≤ 1 ∧ npp ≤ 1 := by
  have hmap : objs.map get_objective = objs := List.map_id' objs
  unfold pipelineScore at h
  rw [hmap] at h
  have := scoreGo_ok_spec x y (pipelinePredict p x) (pipelinePredictProba p x)
    objs none none 0 0 [] res np npp hnd (by simp) h
  simpa using this

/-- C1 witness: scoring the witness pipeline on one hard-prediction
objective and one probability objective returns the two keys in request
order with one `predict` call and one `predict_proba` call. -/
theorem c1_witness :
    [("Accuracy", (79 : Int)), ("AUC", 59)].map Prod.fst
        = [objAcc, objAuc].map Objective.name ∧ (1 : Nat) ≤ 1 ∧ (1 : Nat) ≤ 1 :=
  c1_score_key_order_and_single_computation samplePipeline sampleX sampleY
    [objAcc, objAuc] [("Accuracy", 79), ("AUC", 59)] 1 1 (by simp)
    (by decide) rfl

/-- C6 (code evaluated at the failing input): the witness objective encodes
its call shape in its score — 10 times the head of its predictions argument,
plus the head of its truth argument, plus 1000 when a feature matrix is
passed.  The estimator predicts [7] and the ground truth is [9, 9], with
`score_needs_proba` and `uses_extra_columns` both false.
`MulticlassClassificationPipeline.score` yields 1097 = 10·9 + 7 + 1000: the
ground truth arrived in the predictions slot, the predictions in the truth
slot, and X was passed although `uses_extra_columns` is false.
`PipelineBase.score` on the same input yields 79 = 10·7 + 9 with no X, the
dispatch the claim describes. -/
theorem c6_multiclass_swaps_score_arguments :
    multiclassScore samplePipeline sampleX sampleY [objAcc]
        = .ok ([("Accuracy", 1097)], 1, 0) ∧
    pipelineScore samplePipeline sampleX sampleY [objAcc]
        = .ok ([("Accuracy", 79)], 1, 0) :=
  ⟨rfl, rfl⟩

/-- C2 (amended): `PipelineBase` keeps no fitted-state flag and `predict`
performs no fitted-state check: on a freshly constructed (never fitted)
pipeline it simply replays the transform chain and delegates to the
estimator, so it succeeds outright whenever the components' own methods
succeed — it does not fail with NotFittedError. -/
theorem c2_unfitted_predict_succeeds
    (graph : List ComponentClass) (ptypes : List ProblemType) (params : Params)
    (p : Pipeline) (x : Frame)
    (_hinit : pipelineInit graph ptypes params = .ok p)
    (htrans : ∀ c ∈ p.component_graph.dropLast, ∀ f, ∃ f', c.transformFn f = .ok f')
    (hpred : ∀ f, ∃ v, p.estimator.predictFn f = .ok v) :
    ∃ v, pipelinePredict p x = .ok v := by
  obtain ⟨xt, hxt⟩ := transformAll_ok p.component_graph.dropLast htrans x
  obtain ⟨v, hv⟩ := hpred xt
  exact ⟨v, by simp [pipelinePredict, hxt, hv]⟩

/-- C2 witness: the freshly constructed witness pipeline predicts
successfully without any fit call. -/
theorem c2_witness :
    ∃ v, pipelinePredict samplePipeline sampleX = .ok v :=
  c2_unfitted_predict_succeeds sampleGraph [.multiclass] [] samplePipeline
    sampleX rfl
    (by
      intro c hc f
      simp only [samplePipeline, List.dropLast_cons₂, List.dropLast_single,
        List.mem_cons, List.not_mem_nil, or_false] at hc
      subst hc
      exact ⟨f, rfl⟩)
    (fun f => ⟨[7], rfl⟩)

/-- C2 counterexample: the witness pipeline is constructed and never
fitted, yet `predict` succeeds with labels [7] instead of failing with
NotFittedError, and `feature_importances` fails with `KeyError` (the
estimator's name is absent from the empty `input_feature_names`), not with
NotFittedError. -/
theorem c2_counterexample :
    pipelineInit sampleGraph [.multiclass] [] = .ok samplePipeline ∧
    pipelinePredict samplePipeline sampleX = .ok [7] ∧
    pipelinePredict samplePipeline sampleX ≠ .error .notFittedError ∧
    feature_importances_lookup samplePipeline =
      .error (.keyError "Const Estimator") ∧
    feature_importances_lookup samplePipeline ≠ .error .notFittedError := by
  refine ⟨rfl, rfl, ?_, rfl, ?_⟩
  · intro h
    rw [show pipelinePredict samplePipeline sampleX = .ok [7] from rfl] at h
    simp at h
  · intro h
    rw [show feature_importances_lookup samplePipeline
          = .error (.keyError "Const Estimator") from rfl] at h
    simp at h

/-- C7: `describe(return_dict=True)` returns exactly the parameters mapping
passed at construction, and still does so after any successful fit call
(fitting rewrites only `input_feature_names`). -/
theorem c7_describe_round_trip
    (graph : List ComponentClass) (ptypes : List ProblemType) (params : Params)
    (p : Pipeline)
    (hinit : pipelineInit graph ptypes params = .ok p) :
    describe p true = some params ∧
    ∀ x y p', pipelineFit p x y = .ok p' → describe p' true = some params := by
  have h1 := init_ok_parameters graph ptypes params p hinit
  refine ⟨by simp [describe, h1], ?_⟩
  intro x y p' hfit
  have h2 := fit_ok_parameters p x y p' hfit
  simp [describe, h2, h1]

/-- C7 witness: the round trip on the witness pipeline, before and after
fitting it on the witness data. -/
theorem c7_witness :
    describe samplePipeline true = some [] ∧
    describe fittedSamplePipeline true = some [] :=
  ⟨(c7_describe_round_trip sampleGraph [.multiclass] [] samplePipeline rfl).1,
   (c7_describe_round_trip sampleGraph [.multiclass] [] samplePipeline rfl).2
     sampleX sampleY fittedSamplePipeline rfl⟩

/-- A constructor `ValueError` is replaced by the instantiation-message
`ValueError`. -/
theorem instantiate_wraps_value_error (c : ComponentClass) (parameters : Params)
    (m : String)
    (hm : c.ctor (paramsGet parameters c.name) = .error (.valueError m)) :
    instantiate_component c parameters =
      .error (.valueError (instantiationErrMsg c.name (paramsGet parameters c.name))) := by
  unfold instantiate_component
  simp only [handle_component]
  rw [hm]

/-- A constructor `TypeError` is replaced by the instantiation-message
`ValueError`. -/
theorem instantiate_wraps_type_error (c : ComponentClass) (parameters : Params)
    (m : String)
    (hm : c.ctor (paramsGet parameters c.name) = .error (.typeError m)) :
    instantiate_component c parameters =
      .error (.valueError (instantiationErrMsg c.name (paramsGet parameters c.name))) := by
  unfold instantiate_component
  simp only [handle_component]
  rw [hm]

/-- C8 (amended): when a component constructor rejects its arguments with a
`ValueError` or `TypeError`, instantiation — and with it pipeline
construction — fails with a fresh `ValueError` whose message names the
component and the offending arguments (the raw exception object is
replaced, though the class is the built-in `ValueError`, not a dedicated
`ComponentInstantiationError`); exceptions of any other class propagate
unwrapped. -/
theorem c8_instantiation_error_wrapping (c : ComponentClass) (parameters : Params) :
    (∀ m, c.ctor (paramsGet parameters c.name) = .error (.valueError m) →
        instantiate_component c parameters =
          .error (.valueError (instantiationErrMsg c.name (paramsGet parameters c.name)))) ∧
    (∀ m, c.ctor (paramsGet parameters c.name) = .error (.typeError m) →
        instantiate_component c parameters =
          .error (.valueError (instantiationErrMsg c.name (paramsGet parameters c.name)))) ∧
    (∀ e, c.ctor (paramsGet parameters c.name) = .error e →
        (∀ m, e ≠ .valueError m) → (∀ m, e ≠ .typeError m) →
        instantiate_component c parameters = .error e) ∧
    (∀ m rest ptypes, c.ctor (paramsGet parameters c.name) = .error (.valueError m) →
        pipelineInit (c :: rest) ptypes parameters =
          .error (.valueError (instantiationErrMsg c.name (paramsGet parameters c.name)))) := by
  refine ⟨instantiate_wraps_value_error c parameters,
          instantiate_wraps_type_error c parameters, ?_, ?_⟩
  · intro e he hnv hnt
    unfold instantiate_component
    simp only [handle_component]
    rw [he]
    cases e with
    | valueError m => exact absurd rfl (hnv m)
    | typeError m => exact absurd rfl (hnt m)
    | keyError k => rfl
    | indexError m => rfl
    | invalidPipelineStructure => rfl
    | unsupportedProblemType => rfl
    | componentInstantiationError => rfl
    | notFittedError => rfl
  · intro m rest ptypes hm
    have hw := instantiate_wraps_value_error c parameters m hm
    unfold pipelineInit instantiateAll
    rw [hw]

/-- C8 witness: the failing encoder constructor produces the wrapping
`ValueError` naming the component and its arguments, at the instantiation
level and at the pipeline level. -/
theorem c8_witness :
    instantiate_component badEncoderClass encParams =
      .error (.valueError (instantiationErrMsg "One Hot Encoder" [("top_n", 512)])) ∧
    pipelineInit [badEncoderClass] [.multiclass] encParams =
      .error (.valueError (instantiationErrMsg "One Hot Encoder" [("top_n", 512)])) :=
  ⟨(c8_instantiation_error_wrapping badEncoderClass encParams).1 "invalid top_n" rfl,
   (c8_instantiation_error_wrapping badEncoderClass encParams).2.2.2 "invalid top_n"
     [] [.multiclass] rfl⟩

/-- C8 counterexample: at the concrete failing constructor the raised
exception is the built-in `ValueError`, not a `ComponentInstantiationError`
exception as the claim states. -/
theorem c8_counterexample :
    instantiate_component badEncoderClass encParams =
      .error (.valueError (instantiationErrMsg "One Hot Encoder" [("top_n", 512)])) ∧
    instantiate_component badEncoderClass encParams ≠
      .error .componentInstantiationError := by
  refine ⟨rfl, ?_⟩
  intro h
  rw [show instantiate_component badEncoderClass encParams
        = .error (.valueError (instantiationErrMsg "One Hot Encoder" [("top_n", 512)]))
      from rfl] at h
  simp at h

/-- C10: `get_component` returns the first component in graph order whose
name matches — the graph splits around the result with every earlier
component named differently — and returns `None` rather than raising
exactly when no component bears the name; the lookup is a pure function of
the pipeline and leaves it unchanged. -/
theorem c10_get_component_first_match
    (p : Pipeline) (nm : String) :
    (∀ c, get_component p nm = some c →
        c.name = nm ∧
        ∃ pre post, p.component_graph = pre ++ c :: post ∧
          ∀ b ∈ pre, b.name ≠ nm) ∧
    (get_component p nm = none ↔ ∀ c ∈ p.component_graph, c.name ≠ nm) := by
  constructor
  · intro c h
    have h2 : p.component_graph.find? (fun component => component.name == nm)
        = some c := h
    obtain ⟨hq, pre, post, heq, hpre⟩ :=
      find?_first_char (fun component => component.name == nm)
        p.component_graph c h2
    refine ⟨by simpa using hq, pre, post, heq, ?_⟩
    intro b hb
    simpa using hpre b hb
  · unfold get_component
    rw [List.find?_eq_none]
    constructor
    · intro hall c hc
      simpa using hall c hc
    · intro hall c hc
      simpa using hall c hc

/-- C10 witness: looking up "Identity Transformer" in the witness pipeline
finds the transformer first, with nothing before it. -/
theorem c10_witness :
    idTransform.name = "Identity Transformer" ∧
    ∃ pre post, samplePipeline.component_graph = pre ++ idTransform :: post ∧
      ∀ b ∈ pre, b.name ≠ "Identity Transformer" :=
  (c10_get_component_first_match samplePipeline "Identity Transformer").1
    idTransform rfl
